import Mathlib

/-!
Shallow embedding of the MCP client subsystem of swarm-builder
(`src/core/mcp/mcp-client.ts`, `src/core/mcp/mcp-tool-registry.ts`,
`src/core/mcp/index.ts`, `src/core/models/index.ts`), together with
theorems settling the specification's claims about it.

Modelling conventions:
* a JS `Map` becomes an association list in insertion order
  (`Map.set` keeps the original position of an existing key,
  `Map.delete` removes the entry);
* JS numbers used as call counters or limits are `Nat`; costs and cost
  limits are `ℚ`;
* a JS truthiness test `if (x)` is translated exactly: `0`, `""`,
  `undefined` and `null` are falsy, objects and arrays are truthy;
* `throw` / promise rejection becomes `Except String`;
* `Date.now()` becomes an explicit `now` argument.
-/

/-- A JSON-like JavaScript value (tool parameters, schemas, results). -/
inductive JSValue where
  | null : JSValue
  | bool (b : Bool) : JSValue
  | num (q : ℚ) : JSValue
  | str (s : String) : JSValue
  | arr (xs : List JSValue) : JSValue
  | obj (fields : List (String × JSValue)) : JSValue

/-- JS truthiness of a value. -/
def JSValue.truthy : JSValue → Bool
  | .null => false
  | .bool b => b
  | .num q => q != 0
  | .str s => s != ""
  | .arr _ => true
  | .obj _ => true

/-- Property access `v.k` on an object; `none` models `undefined`.
JS objects cannot hold a key twice, so first-match lookup is exact. -/
def jsGetField : JSValue → String → Option JSValue
  | .obj fields, k => fields.lookup k
  | _, _ => none

/-- `Object.keys(v)`: field names of an object, index strings of an
array or string, `[]` for primitives. -/
def jsKeys : JSValue → List String
  | .obj fields => fields.map Prod.fst
  | .arr xs => (List.range xs.length).map toString
  | .str s => (List.range s.length).map toString
  | _ => []

/-- `String.prototype.toLowerCase` (per-character lowering). -/
def jsToLower (s : String) : String := String.mk (s.data.map Char.toLower)

/-- `String.prototype.includes`: `needle` occurs contiguously in `hay`. -/
def strIncludes (hay needle : String) : Bool :=
  (List.range (hay.length + 1)).any fun i => needle.data.isPrefixOf (hay.data.drop i)

/-- `Array.prototype.join` with a separator. -/
def joinSep (sep : String) : List String → String
  | [] => ""
  | [x] => x
  | x :: y :: xs => x ++ sep ++ joinSep sep (y :: xs)

/-- `Map.get` on an insertion-ordered association list. -/
def aGet {α : Type} (l : List (String × α)) (k : String) : Option α :=
  l.lookup k

/-- `Map.set`: replace in place if the key exists, else append. -/
def aSet {α : Type} (l : List (String × α)) (k : String) (v : α) : List (String × α) :=
  if l.any (fun p => p.1 == k) then
    l.map (fun p => if p.1 == k then (k, v) else p)
  else
    l ++ [(k, v)]

/-- `Map.delete`. -/
def aDel {α : Type} (l : List (String × α)) (k : String) : List (String × α) :=
  l.filter (fun p => p.1 != k)

/-- Truthiness of an optional JS string (`undefined` and `""` falsy). -/
def truthyStr : Option String → Bool
  | some s => s != ""
  | none => false

/-- Truthiness of an optional JS number holding a `Nat` (`0` falsy). -/
def truthyNat : Option Nat → Bool
  | some n => n != 0
  | none => false

/-- Truthiness of an optional JS number holding a `ℚ` (`0` falsy). -/
def truthyRat : Option ℚ → Bool
  | some q => q != 0
  | none => false

/-- Truthiness of an optional JS boolean. -/
def truthyBool : Option Bool → Bool
  | some b => b
  | none => false

/-- `Number.prototype.toFixed(2)` on an exact rational (round half away
from zero, two decimal digits). -/
def ratToFixed2 (q : ℚ) : String :=
  let sign := if q < 0 then "-" else ""
  let c : Nat := (Rat.floor (|q| * 100 + 1/2)).toNat
  let ip := c / 100
  let fp := c % 100
  let fs := if fp < 10 then "0" ++ toString fp else toString fp
  sign ++ toString ip ++ "." ++ fs

/-- `MCPPermissionOptions` (src/core/models/index.ts). -/
structure MCPPermissionOptions where
  requireApproval : Option Bool := none
  maxCallsPerSession : Option Nat := none
  maxCostPerSession : Option ℚ := none
  allowedParameters : Option (List String) := none
  deriving DecidableEq

/-- `PermissionCheckResult` (src/core/mcp/index.ts). -/
structure PermissionCheckResult where
  allowed : Bool
  reason : Option String := none
  requiresApproval : Option Bool := none
  deriving DecidableEq

/-- `MCPPermissionManager` state (src/core/models/index.ts): per-agent
permission rules, call counters and cost totals. -/
structure MCPPermissionManager where
  permissions : List (String × List (String × MCPPermissionOptions)) := []
  callCounts : List (String × List (String × Nat)) := []
  costTracking : List (String × List (String × ℚ)) := []
  deriving DecidableEq

/-- The freshly constructed manager (all maps empty). -/
def MCPPermissionManager.new : MCPPermissionManager := {}

/-- `MCPPermissionManager.setPermission`. -/
def MCPPermissionManager.setPermission (m : MCPPermissionManager)
    (agentId toolId : String) (options : MCPPermissionOptions) : MCPPermissionManager :=
  let agentPermissions := (aGet m.permissions agentId).getD []
  { m with permissions := aSet m.permissions agentId (aSet agentPermissions toolId options) }

/-- `MCPPermissionManager.getCallCount` (private helper; `|| 0` fallback). -/
def MCPPermissionManager.getCallCount (m : MCPPermissionManager)
    (agentId toolId : String) : Nat :=
  match aGet m.callCounts agentId with
  | none => 0
  | some counts => (aGet counts toolId).getD 0

/-- `MCPPermissionManager.getCost` (private helper; `|| 0` fallback). -/
def MCPPermissionManager.getCost (m : MCPPermissionManager)
    (agentId toolId : String) : ℚ :=
  match aGet m.costTracking agentId with
  | none => 0
  | some costs => (aGet costs toolId).getD 0

/-- `MCPPermissionManager.checkPermission`: the source method performs
no writes to any field, so it translates to a pure function of the
manager state. Checks run in source order with JS truthiness guards. -/
def MCPPermissionManager.checkPermission (m : MCPPermissionManager)
    (agentId toolId : String) (params : Option JSValue) : PermissionCheckResult :=
  match aGet m.permissions agentId with
  | none => { allowed := false, reason := some "Agent does not have any permissions" }
  | some agentPermissions =>
    match aGet agentPermissions toolId with
    | none => { allowed := false, reason := some "Agent does not have permission for this tool" }
    | some tp =>
      let callCount := m.getCallCount agentId toolId
      if truthyNat tp.maxCallsPerSession && decide (tp.maxCallsPerSession.getD 0 ≤ callCount) then
        { allowed := false,
          reason := some ("Call limit exceeded (" ++ toString callCount ++ "/" ++
            toString (tp.maxCallsPerSession.getD 0) ++ ")") }
      else
        let cost := m.getCost agentId toolId
        if truthyRat tp.maxCostPerSession && decide (tp.maxCostPerSession.getD 0 ≤ cost) then
          { allowed := false,
            reason := some ("Cost limit exceeded ($" ++ ratToFixed2 cost ++ "/$" ++
              ratToFixed2 (tp.maxCostPerSession.getD 0) ++ ")") }
        else
          let approvalResult : PermissionCheckResult :=
            if truthyBool tp.requireApproval then
              { allowed := true, requiresApproval := some true }
            else
              { allowed := true }
          let pTruthy := match params with | some p => p.truthy | none => false
          if pTruthy && tp.allowedParameters.isSome then
            let paramKeys := jsKeys (params.getD JSValue.null)
            let invalidParams :=
              paramKeys.filter (fun k => !((tp.allowedParameters.getD []).contains k))
            if invalidParams.isEmpty then approvalResult
            else
              { allowed := false,
                reason := some ("Invalid parameters: " ++ joinSep ", " invalidParams) }
          else approvalResult

/-- `MCPPermissionManager.recordToolUsage`: increments the call counter
unconditionally; adds the cost only when `cost` is truthy. -/
def MCPPermissionManager.recordToolUsage (m : MCPPermissionManager)
    (agentId toolId : String) (cost : Option ℚ) : MCPPermissionManager :=
  let agentCallCounts := (aGet m.callCounts agentId).getD []
  let currentCount := (aGet agentCallCounts toolId).getD 0
  let callCountsNew := aSet m.callCounts agentId (aSet agentCallCounts toolId (currentCount + 1))
  if truthyRat cost then
    let agentCosts := (aGet m.costTracking agentId).getD []
    let currentCost := (aGet agentCosts toolId).getD 0
    { m with callCounts := callCountsNew,
             costTracking := aSet m.costTracking agentId (aSet agentCosts toolId (currentCost + cost.getD 0)) }
  else
    { m with callCounts := callCountsNew }

/-- `MCPPermissionManager.resetSession`: deletes the agent's entries in
both counter maps. -/
def MCPPermissionManager.resetSession (m : MCPPermissionManager)
    (agentId : String) : MCPPermissionManager :=
  { m with callCounts := aDel m.callCounts agentId,
           costTracking := aDel m.costTracking agentId }

/-- Transport kind of a server connection. -/
inductive Transport where
  | websocket : Transport
  | http : Transport
  | stdio : Transport
  deriving DecidableEq

/-- The string the source interpolates for a transport. -/
def Transport.toStr : Transport → String
  | .websocket => "websocket"
  | .http => "http"
  | .stdio => "stdio"

/-- `MCPServerConnectionOptions` (src/core/mcp/index.ts). -/
structure MCPServerConnectionOptions where
  transport : Transport
  timeout : Option Nat := none
  keepAlive : Option Bool := none
  reconnect : Option Bool := none
  maxReconnectAttempts : Option Nat := none
  deriving DecidableEq

/-- `ConnectionStatus` (src/core/mcp/index.ts). -/
inductive ConnectionStatus where
  | disconnected : ConnectionStatus
  | connecting : ConnectionStatus
  | connected : ConnectionStatus
  | error : ConnectionStatus
  deriving DecidableEq

/-- A tool as it appears in a server's capability descriptor. -/
structure RawTool where
  name : String
  description : String
  parameters : JSValue
  returns : JSValue

/-- A server capability descriptor; the fresh connection starts with
the empty object `{}`, i.e. every field `undefined`. -/
structure Capabilities where
  name : Option String := none
  version : Option String := none
  transport : Option Transport := none
  tools : Option (List RawTool) := none

/-- Result metadata of a tool execution. -/
structure MCPToolResultMetadata where
  cost : Option ℚ := none
  latency : Option Nat := none
  timestamp : Option Nat := none

/-- `MCPToolResult` (src/core/mcp/index.ts). -/
structure MCPToolResult where
  data : JSValue
  metadata : Option MCPToolResultMetadata := none

/-- `MCPServerConnection` state (src/core/mcp/mcp-tool-registry.ts):
pending requests are kept by correlation id. -/
structure MCPServerConnection where
  endpoint : String
  options : MCPServerConnectionOptions
  status : ConnectionStatus
  capabilities : Capabilities
  socket : Bool
  requestId : Nat
  pendingRequests : List Nat

/-- The constructor `new MCPServerConnection(endpoint, options)`. -/
def MCPServerConnection.new (endpoint : String) (options : MCPServerConnectionOptions) :
    MCPServerConnection :=
  { endpoint := endpoint, options := options, status := ConnectionStatus.disconnected,
    capabilities := {}, socket := false, requestId := 0, pendingRequests := [] }

/-- The tool in the mock capability response (`fetchCapabilities`). -/
def echoRawTool : RawTool :=
  { name := "echo",
    description := "Echo back the input message",
    parameters := JSValue.obj
      [("type", JSValue.str "object"),
       ("properties", JSValue.obj
         [("message", JSValue.obj
           [("type", JSValue.str "string"),
            ("description", JSValue.str "Message to echo")])]),
       ("required", JSValue.arr [JSValue.str "message"])],
    returns := JSValue.obj
      [("type", JSValue.str "object"),
       ("properties", JSValue.obj
         [("message", JSValue.obj
           [("type", JSValue.str "string"),
            ("description", JSValue.str "Echoed message")])])] }

/-- `fetchCapabilities`: the source returns a fixed mock descriptor. -/
def MCPServerConnection.fetchCapabilities (c : MCPServerConnection) : Capabilities :=
  { name := some "Mock MCP Server", version := some "1.0.0",
    transport := some c.options.transport, tools := some [echoRawTool] }

/-- `MCPServerConnection.connect`: no-op when already connected;
websocket and http transports succeed (the websocket is simulated),
any other transport throws and leaves the connection in `error`. -/
def MCPServerConnection.connect (c : MCPServerConnection) :
    Except String Unit × MCPServerConnection :=
  if c.status = ConnectionStatus.connected then (Except.ok (), c)
  else
    let c1 := { c with status := ConnectionStatus.connecting }
    match c1.options.transport with
    | Transport.websocket =>
      let c2 := { c1 with socket := true, status := ConnectionStatus.connected }
      (Except.ok (), { c2 with capabilities := c2.fetchCapabilities })
    | Transport.http =>
      let c2 := { c1 with status := ConnectionStatus.connected }
      (Except.ok (), { c2 with capabilities := c2.fetchCapabilities })
    | Transport.stdio =>
      (Except.error ("Unsupported transport: " ++ Transport.toStr c1.options.transport),
       { c1 with status := ConnectionStatus.error })

/-- `MCPServerConnection.disconnect`: no-op unless connected; otherwise
every pending request is rejected with `Connection closed` and removed,
and the status becomes `disconnected`. The second component lists the
rejections issued, in map order. -/
def MCPServerConnection.disconnect (c : MCPServerConnection) :
    MCPServerConnection × List (Nat × String) :=
  if c.status ≠ ConnectionStatus.connected then (c, [])
  else
    let rejections := c.pendingRequests.map (fun id => (id, "Connection closed"))
    ({ c with pendingRequests := [], status := ConnectionStatus.disconnected }, rejections)

/-- `MCPServerConnection.getCapabilities`. -/
def MCPServerConnection.getCapabilities (c : MCPServerConnection) :
    Except String Capabilities :=
  if c.status ≠ ConnectionStatus.connected then Except.error "Not connected to server"
  else Except.ok c.capabilities

/-- `MCPServerConnection.executeTool`: the source simulates execution,
answering only the `echo` tool when `params.message` is truthy. -/
def MCPServerConnection.executeTool (c : MCPServerConnection)
    (toolName : String) (params : JSValue) (now : Nat) : Except String MCPToolResult :=
  if c.status ≠ ConnectionStatus.connected then Except.error "Not connected to server"
  else
    let msgTruthy := match jsGetField params "message" with
      | some v => v.truthy
      | none => false
    if toolName == "echo" && msgTruthy then
      Except.ok { data := JSValue.obj [("message", (jsGetField params "message").getD JSValue.null)],
                  metadata := some { cost := some 0, latency := some 10, timestamp := some now } }
    else Except.error ("Tool not found: " ++ toolName)

/-- `MCPToolMetadata` field of a tool descriptor. -/
structure MCPToolMetadata where
  category : Option String := none
  version : Option String := none
  costEstimate : Option String := none

/-- `MCPTool` descriptor (src/core/mcp/index.ts). -/
structure MCPTool where
  id : String
  serverId : String
  name : String
  description : String
  parameters : JSValue
  returns : JSValue
  metadata : Option MCPToolMetadata := none

/-- `MCPToolFilter` (src/core/mcp/index.ts). -/
structure MCPToolFilter where
  serverId : Option String := none
  category : Option String := none
  search : Option String := none

/-- `MCPToolRegistry.registerTool`: `Map.set` keyed by `tool.id`. -/
def MCPToolRegistry.registerTool (r : List MCPTool) (tool : MCPTool) : List MCPTool :=
  if r.any (fun t => t.id == tool.id) then
    r.map (fun t => if t.id == tool.id then tool else t)
  else r ++ [tool]

/-- `MCPToolRegistry.unregisterTool`: `Map.delete` keyed by id. -/
def MCPToolRegistry.unregisterTool (r : List MCPTool) (toolId : String) : List MCPTool :=
  r.filter (fun t => t.id != toolId)

/-- `MCPToolRegistry.getTool`. -/
def MCPToolRegistry.getTool (r : List MCPTool) (toolId : String) : Option MCPTool :=
  r.find? (fun t => t.id == toolId)

/-- `MCPToolRegistry.listTools`: three successive filters, each guarded
by JS truthiness of the corresponding filter field. -/
def MCPToolRegistry.listTools (r : List MCPTool) (filter : Option MCPToolFilter) :
    List MCPTool :=
  match filter with
  | none => r
  | some f =>
    let tools := r
    let tools := if truthyStr f.serverId then
        tools.filter (fun t => t.serverId == f.serverId.getD "")
      else tools
    let tools := if truthyStr f.category then
        tools.filter (fun t => (t.metadata.bind MCPToolMetadata.category) == f.category)
      else tools
    let tools := if truthyStr f.search then
        let searchTerm := jsToLower (f.search.getD "")
        tools.filter (fun t =>
          strIncludes (jsToLower t.name) searchTerm ||
          strIncludes (jsToLower t.description) searchTerm)
      else tools
    tools

/-- `MCPToolRegistry.searchTools`. -/
def MCPToolRegistry.searchTools (r : List MCPTool) (query : String) : List MCPTool :=
  MCPToolRegistry.listTools r (some { search := some query })

/-- `MCPClient` state (src/core/mcp/mcp-client.ts): the server map and
the tool registry - the facade holds no permission manager. -/
structure MCPClient where
  servers : List (String × MCPServerConnection) := []
  toolRegistry : List MCPTool := []

/-- `MCPClient.connectServer`: duplicate ids are rejected first; the
fresh connection is stored only after `connect()` succeeded, then the
capability tools are registered under `serverId:name` ids. -/
def MCPClient.connectServer (c : MCPClient) (serverId endpoint : String)
    (options : MCPServerConnectionOptions) : Except String Unit × MCPClient :=
  if (aGet c.servers serverId).isSome then
    (Except.error ("Server with ID " ++ serverId ++ " already exists"), c)
  else
    match (MCPServerConnection.new endpoint options).connect with
    | (Except.error e, _) => (Except.error e, c)
    | (Except.ok _, conn1) =>
      let c1 := { c with servers := aSet c.servers serverId conn1 }
      match conn1.getCapabilities with
      | Except.error e => (Except.error e, c1)
      | Except.ok capabilities =>
        match capabilities.tools with
        | none => (Except.ok (), c1)
        | some tools =>
          let registryNew := tools.foldl (fun r tool =>
            MCPToolRegistry.registerTool r
              { id := serverId ++ ":" ++ tool.name, serverId := serverId,
                name := tool.name, description := tool.description,
                parameters := tool.parameters, returns := tool.returns,
                metadata := none }) c1.toolRegistry
          (Except.ok (), { c1 with toolRegistry := registryNew })

/-- `MCPClient.disconnectServer`: unknown ids are rejected; otherwise
the connection is disconnected and dropped, and every tool listed under
`{serverId}` is unregistered before the call returns. -/
def MCPClient.disconnectServer (c : MCPClient) (serverId : String) :
    Except String Unit × MCPClient :=
  match aGet c.servers serverId with
  | none => (Except.error ("Server with ID " ++ serverId ++ " not found"), c)
  | some conn =>
    let _ := conn.disconnect
    let c1 := { c with servers := aDel c.servers serverId }
    let tools := MCPToolRegistry.listTools c1.toolRegistry (some { serverId := some serverId })
    let registryNew := tools.foldl (fun r t => MCPToolRegistry.unregisterTool r t.id) c1.toolRegistry
    (Except.ok (), { c1 with toolRegistry := registryNew })

/-- `MCPClient.listTools` delegates to the registry. -/
def MCPClient.listTools (c : MCPClient) (filter : Option MCPToolFilter) : List MCPTool :=
  MCPToolRegistry.listTools c.toolRegistry filter

/-- `MCPClient.getTool` delegates to the registry. -/
def MCPClient.getTool (c : MCPClient) (toolId : String) : Option MCPTool :=
  MCPToolRegistry.getTool c.toolRegistry toolId

/-- `MCPClient.executeTool`: resolves the descriptor, resolves the
owning connection, and forwards the call. The body references only
`this.toolRegistry` and `this.servers`. -/
def MCPClient.executeTool (c : MCPClient) (toolId : String) (params : JSValue)
    (now : Nat) : Except String MCPToolResult :=
  match MCPToolRegistry.getTool c.toolRegistry toolId with
  | none => Except.error ("Tool with ID " ++ toolId ++ " not found")
  | some tool =>
    match aGet c.servers tool.serverId with
    | none => Except.error ("Server for tool " ++ toolId ++ " not connected")
    | some conn => conn.executeTool tool.name params now

/-- A client observed next to the repository's permission manager. -/
structure FacadeSession where
  client : MCPClient
  permissionManager : MCPPermissionManager

/-- Executing a tool through the facade, observed next to the
permission manager the repository also defines: the body of
`MCPClient.executeTool` references neither `checkPermission` nor
`recordToolUsage`, so the permission-manager component is untouched. -/
def FacadeSession.executeTool (s : FacadeSession) (toolId : String) (params : JSValue)
    (now : Nat) : Except String MCPToolResult × FacadeSession :=
  (s.client.executeTool toolId params now, s)

/-- One method call on the permission manager, as a state transition.
`checkPermission` returns the input state unchanged because the source
method contains no assignment to any field. -/
inductive PermOp where
  | setPermission (agentId toolId : String) (options : MCPPermissionOptions) : PermOp
  | checkPermission (agentId toolId : String) (params : Option JSValue) : PermOp
  | recordToolUsage (agentId toolId : String) (cost : Option ℚ) : PermOp
  | resetSession (agentId : String) : PermOp

/-- Run one permission-manager method; `checkPermission` alone emits a
result. -/
def PermOp.run (op : PermOp) (m : MCPPermissionManager) :
    MCPPermissionManager × Option PermissionCheckResult :=
  match op with
  | .setPermission a t o => (m.setPermission a t o, none)
  | .checkPermission a t p => (m, some (m.checkPermission a t p))
  | .recordToolUsage a t c => (m.recordToolUsage a t c, none)
  | .resetSession a => (m.resetSession a, none)

/-- Run a sequence of permission-manager methods, collecting the
emitted check results. -/
def PermOp.runSeq (ops : List PermOp) (m : MCPPermissionManager) :
    MCPPermissionManager × List PermissionCheckResult :=
  match ops with
  | [] => (m, [])
  | op :: rest =>
    let step := op.run m
    let next := PermOp.runSeq rest step.1
    (next.1, (match step.2 with | some x => [x] | none => []) ++ next.2)

/-- Specification-side filter predicate, written from the spec's words
(section 4.2): provided fields apply conjunctively; `serverId` and
`category` by equality, the search term by case-insensitive substring
match against name or description. -/
def matchesFilterSpec (f : MCPToolFilter) (t : MCPTool) : Bool :=
  (match f.serverId with
   | none => true
   | some sid => t.serverId == sid) &&
  (match f.category with
   | none => true
   | some cat => (t.metadata.bind MCPToolMetadata.category) == some cat) &&
  (match f.search with
   | none => true
   | some q => strIncludes (jsToLower t.name) (jsToLower q) ||
               strIncludes (jsToLower t.description) (jsToLower q))

/-- Connection options selecting the plain http transport. -/
def httpOptions : MCPServerConnectionOptions := { transport := Transport.http }

/-- The client after `connectServer("fs", endpoint, {transport: http})`
from the fresh client. -/
def fsClient : MCPClient :=
  (MCPClient.connectServer {} "fs" "http://localhost:3000" httpOptions).2

/-- The descriptor the capability fetch registers for server `fs`. -/
def fsEchoTool : MCPTool :=
  { id := "fs:echo", serverId := "fs", name := "echo",
    description := "Echo back the input message",
    parameters := echoRawTool.parameters, returns := echoRawTool.returns,
    metadata := none }

/-- Parameters `{message: "hi"}` for the echo tool. -/
def hiParams : JSValue := JSValue.obj [("message", JSValue.str "hi")]

/-- The result the mock connection produces for `echo {message:"hi"}`
at time 0. -/
def fsEchoResult : MCPToolResult :=
  { data := JSValue.obj [("message", JSValue.str "hi")],
    metadata := some { cost := some 0, latency := some 10, timestamp := some 0 } }

/-- A connected websocket connection with two pending requests. -/
def connTwoPending : MCPServerConnection :=
  { MCPServerConnection.new "endpoint" { transport := Transport.websocket } with
    status := ConnectionStatus.connected, pendingRequests := [1, 2] }

/-- Claim C1 (code bug): a successful `executeTool` through the facade
performs no usage recording. Starting from the connected client and a
permission manager holding a rule for (`agent1`, `fs:echo`), the call
succeeds yet the manager is untouched and the call counter for
(`agent1`, `fs:echo`) is still 0 afterwards - `MCPClient` holds no
permission manager and its `executeTool` contains no `recordToolUsage`
call. -/
theorem c1_successful_execute_records_no_usage :
    ((FacadeSession.executeTool
        { client := fsClient,
          permissionManager := MCPPermissionManager.new.setPermission "agent1" "fs:echo" {} }
        "fs:echo" hiParams 0).1 = Except.ok fsEchoResult) ∧
    ((FacadeSession.executeTool
        { client := fsClient,
          permissionManager := MCPPermissionManager.new.setPermission "agent1" "fs:echo" {} }
        "fs:echo" hiParams 0).2.permissionManager.getCallCount "agent1" "fs:echo" = 0) ∧
    ((FacadeSession.executeTool
        { client := fsClient,
          permissionManager := MCPPermissionManager.new.setPermission "agent1" "fs:echo" {} }
        "fs:echo" hiParams 0).2.permissionManager =
      MCPPermissionManager.new.setPermission "agent1" "fs:echo" {}) :=
  ⟨rfl, rfl, rfl⟩

/-- Claim C2 (code bug): with server `fs` connected and no permission
rule for caller `agent1`, the Permission Authority denies
(`agent1`, `fs:echo`), yet the facade's `executeTool` still forwards
the call to the server connection, which executes it and returns the
tool result. -/
theorem c2_denied_call_still_executes :
    (MCPPermissionManager.new.checkPermission "agent1" "fs:echo" (some hiParams)).allowed
      = false ∧
    (MCPPermissionManager.new.checkPermission "agent1" "fs:echo" (some hiParams)).reason
      = some "Agent does not have any permissions" ∧
    fsClient.executeTool "fs:echo" hiParams 0 = Except.ok fsEchoResult :=
  ⟨rfl, rfl, rfl⟩

/-- Claim C6: connecting a server id that already has a live
registration fails with the duplicate-server error and returns the
client state - servers and tool catalog - unchanged. -/
theorem c6_duplicate_connect_rejected (c : MCPClient) (serverId endpoint : String)
    (options : MCPServerConnectionOptions)
    (h : (aGet c.servers serverId).isSome = true) :
    c.connectServer serverId endpoint options =
      (Except.error ("Server with ID " ++ serverId ++ " already exists"), c) := by
  unfold MCPClient.connectServer
  simp [h]

/-- Witness for C6 at the connected `fs` client. -/
theorem c6_duplicate_connect_rejected_witness :
    (aGet fsClient.servers "fs").isSome = true ∧
    fsClient.connectServer "fs" "e2" httpOptions =
      (Except.error ("Server with ID " ++ "fs" ++ " already exists"), fsClient) :=
  ⟨rfl, c6_duplicate_connect_rejected fsClient "fs" "e2" httpOptions rfl⟩

/-- Claim C10: when the fresh connection's `connect()` fails inside
`connectServer` for an unregistered id, the facade surfaces the error
and the client state is unchanged: no server entry is added and no
tool is registered. -/
theorem c10_connect_failure_leaves_client_unchanged (c : MCPClient)
    (serverId endpoint : String) (options : MCPServerConnectionOptions) (e : String)
    (hfresh : aGet c.servers serverId = none)
    (hfail : ((MCPServerConnection.new endpoint options).connect).1 = Except.error e) :
    c.connectServer serverId endpoint options = (Except.error e, c) := by
  have hp : (MCPServerConnection.new endpoint options).connect =
      (((MCPServerConnection.new endpoint options).connect).1,
       ((MCPServerConnection.new endpoint options).connect).2) := rfl
  unfold MCPClient.connectServer
  rw [hp, hfail]
  simp [hfresh]

/-- Witness for C10: connecting over the unsupported stdio transport. -/
theorem c10_connect_failure_leaves_client_unchanged_witness :
    aGet (MCPClient.servers {}) "s" = none ∧
    ((MCPServerConnection.new "e" { transport := Transport.stdio }).connect).1 =
      Except.error ("Unsupported transport: " ++ "stdio") ∧
    MCPClient.connectServer {} "s" "e" { transport := Transport.stdio } =
      (Except.error ("Unsupported transport: " ++ "stdio"), {}) :=
  ⟨rfl, rfl,
    c10_connect_failure_leaves_client_unchanged {} "s" "e"
      { transport := Transport.stdio } ("Unsupported transport: " ++ "stdio") rfl rfl⟩

/-- Claim C9: `checkPermission` is read-only - any number of repeated
checks with no intervening mutation leaves the manager unchanged and
every check returns the same result. -/
theorem c9_checkPermission_readonly (m : MCPPermissionManager)
    (agentId toolId : String) (params : Option JSValue) (n : Nat) :
    (PermOp.runSeq (List.replicate n (PermOp.checkPermission agentId toolId params)) m).1
      = m ∧
    (PermOp.runSeq (List.replicate n (PermOp.checkPermission agentId toolId params)) m).2
      = List.replicate n (m.checkPermission agentId toolId params) := by
  induction n with
  | zero => exact ⟨rfl, rfl⟩
  | succ k ih =>
    refine ⟨?_, ?_⟩
    · simpa [List.replicate_succ, PermOp.runSeq, PermOp.run] using ih.1
    · simp [List.replicate_succ, PermOp.runSeq, PermOp.run, ih.1, ih.2]

/-- Claim C5: `disconnect()` is a no-op when the connection is not
connected; when it is connected, it empties the pending-request map,
transitions to `disconnected`, and rejects every pending request with
`Connection closed` - exactly once each when the correlation ids are
distinct. -/
theorem c5_disconnect_behaviour (c : MCPServerConnection) :
    (c.status ≠ ConnectionStatus.connected → c.disconnect = (c, [])) ∧
    (c.status = ConnectionStatus.connected →
      c.disconnect.1.pendingRequests = [] ∧
      c.disconnect.1.status = ConnectionStatus.disconnected ∧
      c.disconnect.2 = c.pendingRequests.map (fun id => (id, "Connection closed")) ∧
      (c.pendingRequests.Nodup → c.disconnect.2.Nodup) ∧
      (∀ id ∈ c.pendingRequests, (id, "Connection closed") ∈ c.disconnect.2)) := by
  constructor
  · intro h
    simp [MCPServerConnection.disconnect, h]
  · intro h
    have hm : c.disconnect.2 = c.pendingRequests.map (fun id => (id, "Connection closed")) := by
      simp [MCPServerConnection.disconnect, h]
    have hinj : Function.Injective (fun id : Nat => (id, "Connection closed")) := by
      intro a b hab
      simpa using congrArg Prod.fst hab
    refine ⟨by simp [MCPServerConnection.disconnect, h],
            by simp [MCPServerConnection.disconnect, h], hm, ?_, ?_⟩
    · intro hnd
      rw [hm]
      exact hnd.map hinj
    · intro id hid
      rw [hm]
      exact List.mem_map_of_mem _ hid

/-- Witness for C5: a connected connection with pending ids 1 and 2. -/
theorem c5_disconnect_behaviour_witness :
    connTwoPending.status = ConnectionStatus.connected ∧
    connTwoPending.disconnect.1.pendingRequests = [] ∧
    connTwoPending.disconnect.1.status = ConnectionStatus.disconnected ∧
    connTwoPending.disconnect.2 =
      [(1, "Connection closed"), (2, "Connection closed")] ∧
    connTwoPending.disconnect.2.Nodup ∧
    (1, "Connection closed") ∈ connTwoPending.disconnect.2 := by
  have h := (c5_disconnect_behaviour connTwoPending).2 rfl
  exact ⟨rfl, h.1, h.2.1, rfl, h.2.2.2.1 (by decide), h.2.2.2.2 1 (by decide)⟩

/-- Deleting a key makes a later `Map.get` for it return `undefined`. -/
theorem aGet_aDel_self {α : Type} (l : List (String × α)) (k : String) :
    aGet (aDel l k) k = none := by
  induction l with
  | nil => rfl
  | cons p l ih =>
    obtain ⟨k1, v⟩ := p
    by_cases h : k1 = k
    · simpa [aDel, aGet, List.filter_cons, h] using ih
    · have hbne : (k1 != k) = true := by simp [h]
      have hne : (k == k1) = false := by simp [Ne.symm h]
      simpa [aDel, aGet, List.filter_cons, hbne, List.lookup, hne] using ih

/-- A manager holding a rule for (`a`, `t`) with `maxCallsPerSession`
set to 0. -/
def zeroLimitManager : MCPPermissionManager :=
  MCPPermissionManager.new.setPermission "a" "t" { maxCallsPerSession := some 0 }

/-- Claim C3 counterexample: the rule for (`a`, `t`) has
`maxCallsPerSession` set to `N = 0` and the current call count 0 is
≥ N, yet the check returns allowed - the source guards the limit
check with JS truthiness, so a zero limit is skipped entirely. -/
theorem c3_zero_limit_not_denied :
    aGet ((aGet zeroLimitManager.permissions "a").getD []) "t" =
      some { maxCallsPerSession := some 0 } ∧
    zeroLimitManager.getCallCount "a" "t" = 0 ∧
    (zeroLimitManager.checkPermission "a" "t" none).allowed = true :=
  ⟨rfl, rfl, rfl⟩

/-- Claim C3 (amended): for a rule with `maxCallsPerSession = N` and
`N > 0`, whenever the current call count is ≥ N the check is denied
with a reason carrying both the count and the limit, before any other
check is consulted. -/
theorem c3_call_limit_denied (m : MCPPermissionManager) (c t : String)
    (params : Option JSValue) (ap : List (String × MCPPermissionOptions))
    (tp : MCPPermissionOptions) (N : Nat)
    (hap : aGet m.permissions c = some ap)
    (htp : aGet ap t = some tp)
    (hN : tp.maxCallsPerSession = some N)
    (hpos : 0 < N)
    (hcount : N ≤ m.getCallCount c t) :
    m.checkPermission c t params =
      { allowed := false,
        reason := some ("Call limit exceeded (" ++ toString (m.getCallCount c t) ++ "/" ++
          toString N ++ ")"),
        requiresApproval := none } := by
  have hne : (N != 0) = true := by simpa using Nat.pos_iff_ne_zero.mp hpos
  simp [MCPPermissionManager.checkPermission, hap, htp, hN, truthyNat, hne, hcount]

/-- A manager with call limit 1 for (`a`, `t`) and one recorded call. -/
def oneCallUsedManager : MCPPermissionManager :=
  (MCPPermissionManager.new.setPermission "a" "t"
    { maxCallsPerSession := some 1 }).recordToolUsage "a" "t" none

/-- Witness for the amended C3: after one recorded call against a
limit of 1, the second check is denied with reason `1/1`. -/
theorem c3_call_limit_denied_witness :
    aGet oneCallUsedManager.permissions "a" =
      some [("t", { maxCallsPerSession := some 1 })] ∧
    oneCallUsedManager.getCallCount "a" "t" = 1 ∧
    oneCallUsedManager.checkPermission "a" "t" none =
      { allowed := false,
        reason := some "Call limit exceeded (1/1)",
        requiresApproval := none } := by
  refine ⟨rfl, rfl, ?_⟩
  have h := c3_call_limit_denied oneCallUsedManager "a" "t" none
      [("t", { maxCallsPerSession := some 1 })] { maxCallsPerSession := some 1 } 1
      rfl rfl rfl (by decide) (by decide)
  exact h

/-- A manager whose rule for (`a`, `t`) has cost limit -1. -/
def negCostManager : MCPPermissionManager :=
  MCPPermissionManager.new.setPermission "a" "t" { maxCostPerSession := some (-1) }

/-- Claim C8 counterexample: with `maxCostPerSession = -1` the check
for (`a`, `t`) is denied solely by the cost-limit branch, and it is
still denied after `resetSession("a")` although both counters are zero
after the reset. -/
theorem c8_reset_does_not_restore_neg_limit :
    (negCostManager.checkPermission "a" "t" none).allowed = false ∧
    (negCostManager.checkPermission "a" "t" none).reason =
      some ("Cost limit exceeded ($" ++ ratToFixed2 0 ++ "/$" ++ ratToFixed2 (-1) ++ ")") ∧
    (negCostManager.resetSession "a").getCallCount "a" "t" = 0 ∧
    (negCostManager.resetSession "a").getCost "a" "t" = 0 ∧
    ((negCostManager.resetSession "a").checkPermission "a" "t" none).allowed = false :=
  ⟨rfl, rfl, rfl, rfl, rfl⟩

/-- Claim C8 (amended): `resetSession` zeroes the call and cost
counters of every tool for the caller; and when the caller's rule for
the tool exists, its cost limit is non-negative and the parameter
check passes - no allow-list is configured, or no supplied key falls
outside it - a check that was denied before the reset is allowed again
after it. (The amendment excludes negative limits, which the source
treats as still exceeded at zero usage.) -/
theorem c8_reset_restores_allowed (m : MCPPermissionManager) (c t : String)
    (params : Option JSValue) (ap : List (String × MCPPermissionOptions))
    (tp : MCPPermissionOptions)
    (hap : aGet m.permissions c = some ap)
    (htp : aGet ap t = some tp)
    (hcost : 0 ≤ tp.maxCostPerSession.getD 0)
    (hparams : tp.allowedParameters = none ∨
      (jsKeys (params.getD JSValue.null)).filter
        (fun k => !((tp.allowedParameters.getD []).contains k)) = [])
    (_hdenied : (m.checkPermission c t params).allowed = false) :
    (∀ t2, (m.resetSession c).getCallCount c t2 = 0) ∧
    (∀ t2, (m.resetSession c).getCost c t2 = 0) ∧
    ((m.resetSession c).checkPermission c t params).allowed = true := by
  have hcc : ∀ t2, (m.resetSession c).getCallCount c t2 = 0 := by
    intro t2
    simp [MCPPermissionManager.resetSession, MCPPermissionManager.getCallCount, aGet_aDel_self]
  have hgc : ∀ t2, (m.resetSession c).getCost c t2 = 0 := by
    intro t2
    simp [MCPPermissionManager.resetSession, MCPPermissionManager.getCost, aGet_aDel_self]
  refine ⟨hcc, hgc, ?_⟩
  have hap2 : aGet (m.resetSession c).permissions c = some ap := hap
  have hcond1 : (truthyNat tp.maxCallsPerSession &&
      decide (tp.maxCallsPerSession.getD 0 ≤ 0)) = false := by
    cases h1 : tp.maxCallsPerSession with
    | none => simp [truthyNat]
    | some N =>
      cases N with
      | zero => simp [truthyNat]
      | succ k => simp [truthyNat, Nat.not_succ_le_zero]
  have hcond2 : (truthyRat tp.maxCostPerSession &&
      decide (tp.maxCostPerSession.getD 0 ≤ 0)) = false := by
    cases h2 : tp.maxCostPerSession with
    | none => simp [truthyRat]
    | some q =>
      by_cases hq : q = 0
      · simp [truthyRat, hq]
      · have hqpos : 0 < q := by
          have hle : (0 : ℚ) ≤ q := by simpa [h2] using hcost
          exact lt_of_le_of_ne hle (Ne.symm hq)
        simp [truthyRat, hq, not_le.mpr hqpos]
  rcases hparams with hnone | hpass
  · simp only [MCPPermissionManager.checkPermission, hap2, htp, hcc, hgc, hcond1, hcond2,
      Bool.false_eq_true, if_false, hnone, Option.isSome_none, Bool.and_false]
    by_cases hra : truthyBool tp.requireApproval
    · simp [hra]
    · simp [hra]
  · simp only [MCPPermissionManager.checkPermission, hap2, htp, hcc, hgc, hcond1, hcond2,
      Bool.false_eq_true, if_false, hpass, List.isEmpty_nil, if_true]
    by_cases hra : truthyBool tp.requireApproval
    · simp [hra]
    · simp [hra]

/-- A manager with call limit 1 and cost limit 5 for (`a`, `t`) after
one recorded call: denied before reset, allowed after. -/
def limitedUsedManager : MCPPermissionManager :=
  (MCPPermissionManager.new.setPermission "a" "t"
    { maxCallsPerSession := some 1, maxCostPerSession := some 5 }).recordToolUsage "a" "t" none

/-- Witness for the amended C8 at a call-limit denial, with truthy
params `{message:"hi"}` carrying a key and no allow-list configured -
the source skips the parameter check there. -/
theorem c8_reset_restores_allowed_witness :
    (limitedUsedManager.checkPermission "a" "t" (some hiParams)).allowed = false ∧
    (limitedUsedManager.resetSession "a").getCallCount "a" "t" = 0 ∧
    (limitedUsedManager.resetSession "a").getCost "a" "t" = 0 ∧
    ((limitedUsedManager.resetSession "a").checkPermission "a" "t" (some hiParams)).allowed
      = true := by
  have h := c8_reset_restores_allowed limitedUsedManager "a" "t" (some hiParams)
      [("t", { maxCallsPerSession := some 1, maxCostPerSession := some 5 })]
      { maxCallsPerSession := some 1, maxCostPerSession := some 5 }
      rfl rfl (by decide) (Or.inl rfl) rfl
  exact ⟨rfl, h.1 "t", h.2.1 "t", h.2.2⟩

/-- Claim C7 counterexample: the filter `{serverId: ""}` provides a
serverId, but the source's truthiness guard treats the empty string as
absent and skips the filter, so the descriptor with serverId `fs`
(which does not equal `""`) is returned instead of being filtered
out. -/
theorem c7_empty_serverId_filter_skipped :
    MCPToolRegistry.listTools [fsEchoTool] (some { serverId := some "" }) = [fsEchoTool] ∧
    fsEchoTool.serverId = "fs" :=
  ⟨rfl, rfl⟩

/-- Claim C7 (amended): for every catalog and every filter whose
provided fields are non-empty strings (the source treats an
empty-string field as absent), `listTools` returns exactly the
descriptors matching all provided fields conjunctively - serverId
equality, metadata-category equality, case-insensitive substring
search over name and description - in insertion order (a single
`List.filter` pass of the catalog), and `searchTools query` equals
`listTools {search := query}`. -/
theorem c7_list_filter_conjunctive (r : List MCPTool) (f : MCPToolFilter)
    (hs : f.serverId ≠ some "") (hc : f.category ≠ some "") (hq : f.search ≠ some "") :
    MCPToolRegistry.listTools r (some f) = r.filter (matchesFilterSpec f) ∧
    ∀ query : String, MCPToolRegistry.searchTools r query =
      MCPToolRegistry.listTools r (some { search := some query }) := by
  refine ⟨?_, fun query => rfl⟩
  rcases hfs : f.serverId with _ | s
  · rcases hfc : f.category with _ | c2
    · rcases hfq : f.search with _ | q3
      · simp [MCPToolRegistry.listTools, hfs, hfc, hfq, truthyStr]
        symm
        rw [List.filter_eq_self]
        intro a _
        simp [matchesFilterSpec, hfs, hfc, hfq]
      · have hq3 : (q3 != "") = true := by rw [hfq] at hq; simpa using hq
        simp [MCPToolRegistry.listTools, hfs, hfc, hfq, truthyStr, hq3]
        exact List.filter_congr fun a _ => by
          simp [matchesFilterSpec, hfs, hfc, hfq]
    · have hc3 : (c2 != "") = true := by rw [hfc] at hc; simpa using hc
      rcases hfq : f.search with _ | q3
      · simp [MCPToolRegistry.listTools, hfs, hfc, hfq, truthyStr, hc3]
        exact List.filter_congr fun a _ => by
          simp [matchesFilterSpec, hfs, hfc, hfq]
      · have hq3 : (q3 != "") = true := by rw [hfq] at hq; simpa using hq
        simp [MCPToolRegistry.listTools, hfs, hfc, hfq, truthyStr, hc3, hq3,
          List.filter_filter]
        exact List.filter_congr fun a _ => by
          simp [matchesFilterSpec, hfs, hfc, hfq, Bool.and_comm, Bool.and_left_comm,
            Bool.and_assoc]
  · have hs3 : (s != "") = true := by rw [hfs] at hs; simpa using hs
    rcases hfc : f.category with _ | c2
    · rcases hfq : f.search with _ | q3
      · simp [MCPToolRegistry.listTools, hfs, hfc, hfq, truthyStr, hs3]
        exact List.filter_congr fun a _ => by
          simp [matchesFilterSpec, hfs, hfc, hfq]
      · have hq3 : (q3 != "") = true := by rw [hfq] at hq; simpa using hq
        simp [MCPToolRegistry.listTools, hfs, hfc, hfq, truthyStr, hs3, hq3,
          List.filter_filter]
        exact List.filter_congr fun a _ => by
          simp [matchesFilterSpec, hfs, hfc, hfq, Bool.and_comm, Bool.and_left_comm,
            Bool.and_assoc]
    · have hc3 : (c2 != "") = true := by rw [hfc] at hc; simpa using hc
      rcases hfq : f.search with _ | q3
      · simp [MCPToolRegistry.listTools, hfs, hfc, hfq, truthyStr, hs3, hc3,
          List.filter_filter]
        exact List.filter_congr fun a _ => by
          simp [matchesFilterSpec, hfs, hfc, hfq, Bool.and_comm, Bool.and_left_comm,
            Bool.and_assoc]
      · have hq3 : (q3 != "") = true := by rw [hfq] at hq; simpa using hq
        simp [MCPToolRegistry.listTools, hfs, hfc, hfq, truthyStr, hs3, hc3, hq3,
          List.filter_filter]
        exact List.filter_congr fun a _ => by
          simp [matchesFilterSpec, hfs, hfc, hfq, Bool.and_comm, Bool.and_left_comm,
            Bool.and_assoc]

/-- Witness for the amended C7: an uppercase search term matches the
`echo` descriptor case-insensitively, and the result agrees with the
specification-side predicate. -/
theorem c7_list_filter_conjunctive_witness :
    (({ search := some "ECHO" } : MCPToolFilter).serverId ≠ some "") ∧
    (({ search := some "ECHO" } : MCPToolFilter).search ≠ some "") ∧
    MCPToolRegistry.listTools [fsEchoTool] (some { search := some "ECHO" }) =
      List.filter (matchesFilterSpec { search := some "ECHO" }) [fsEchoTool] ∧
    MCPToolRegistry.listTools [fsEchoTool] (some { search := some "ECHO" }) = [fsEchoTool] := by
  refine ⟨by decide, by decide, ?_, rfl⟩
  exact (c7_list_filter_conjunctive [fsEchoTool] { search := some "ECHO" }
    (by decide) (by decide) (by decide)).1

/-- Unregistering every tool of a listed batch from the registry is
the same as filtering out every descriptor whose id occurs in the
batch. -/
theorem foldl_unregister_eq_filter (ts r0 : List MCPTool) :
    ts.foldl (fun r t => MCPToolRegistry.unregisterTool r t.id) r0 =
      r0.filter (fun x => ts.all (fun t => x.id != t.id)) := by
  induction ts generalizing r0 with
  | nil => simp
  | cons t ts ih =>
    rw [List.foldl_cons, ih, MCPToolRegistry.unregisterTool, List.filter_filter]
    exact List.filter_congr fun a _ => by
      simp [List.all_cons, Bool.and_comm]

/-- Claim C4: for a registered server id, `disconnectServer` succeeds
and removes the server's descriptors from the catalog within the same
call: afterwards `listTools {serverId}` returns the empty list and
`getTool` returns `none` for every tool id that belonged to the
server. -/
theorem c4_disconnect_removes_tools (c : MCPClient) (sid : String)
    (conn : MCPServerConnection) (h : aGet c.servers sid = some conn) :
    (c.disconnectServer sid).1 = Except.ok () ∧
    MCPToolRegistry.listTools (c.disconnectServer sid).2.toolRegistry
      (some { serverId := some sid }) = [] ∧
    (∀ t ∈ c.toolRegistry, t.serverId = sid →
      MCPToolRegistry.getTool (c.disconnectServer sid).2.toolRegistry t.id = none) := by
  have hok : (c.disconnectServer sid).1 = Except.ok () := by
    simp [MCPClient.disconnectServer, h]
  have hreg : (c.disconnectServer sid).2.toolRegistry =
      c.toolRegistry.filter (fun x =>
        (MCPToolRegistry.listTools c.toolRegistry (some { serverId := some sid })).all
          (fun t => x.id != t.id)) := by
    simp [MCPClient.disconnectServer, h, foldl_unregister_eq_filter]
  have hT : ∀ t ∈ c.toolRegistry, t.serverId = sid →
      t ∈ MCPToolRegistry.listTools c.toolRegistry (some { serverId := some sid }) := by
    intro t ht hts
    by_cases hempty : sid = ""
    · simpa [MCPToolRegistry.listTools, truthyStr, hempty] using ht
    · have hsid : (sid != "") = true := by simpa using hempty
      simp [MCPToolRegistry.listTools, truthyStr, hsid, List.mem_filter, ht, hts]
  have hmem : ∀ x ∈ (c.disconnectServer sid).2.toolRegistry,
      x ∈ c.toolRegistry ∧
      ∀ t ∈ MCPToolRegistry.listTools c.toolRegistry (some { serverId := some sid }),
        (x.id != t.id) = true := by
    intro x hx
    rw [hreg] at hx
    have hx2 := List.mem_filter.mp hx
    refine ⟨hx2.1, ?_⟩
    intro t ht
    exact List.all_eq_true.mp hx2.2 t ht
  have hnotsid : ∀ x ∈ (c.disconnectServer sid).2.toolRegistry, x.serverId ≠ sid := by
    intro x hx hxs
    obtain ⟨hxr, hall⟩ := hmem x hx
    have hxT := hT x hxr hxs
    have hfalse := hall x hxT
    simp at hfalse
  refine ⟨hok, ?_, ?_⟩
  · by_cases hempty : sid = ""
    · subst hempty
      have hTeq : MCPToolRegistry.listTools c.toolRegistry (some { serverId := some "" })
          = c.toolRegistry := by
        simp [MCPToolRegistry.listTools, truthyStr]
      have hres : (c.disconnectServer "").2.toolRegistry = [] := by
        rw [hreg, hTeq, List.filter_eq_nil_iff]
        intro a ha
        simp [List.all_eq_true]
        exact ⟨a, ha, by simp⟩
      simp [MCPToolRegistry.listTools, truthyStr, hres]
    · have hsid : (sid != "") = true := by simpa using hempty
      rw [show (MCPToolRegistry.listTools (c.disconnectServer sid).2.toolRegistry
          (some { serverId := some sid })) =
          ((c.disconnectServer sid).2.toolRegistry).filter (fun t => t.serverId == sid) from by
        simp [MCPToolRegistry.listTools, truthyStr, hsid]]
      rw [List.filter_eq_nil_iff]
      intro a ha
      have hne := hnotsid a ha
      simp [hne]
  · intro t ht hts
    rw [MCPToolRegistry.getTool, List.find?_eq_none]
    intro x hx
    obtain ⟨hxr, hall⟩ := hmem x hx
    have := hall t (hT t ht hts)
    simpa using this

/-- Witness for C4: disconnecting the connected `fs` server empties
its slice of the catalog and drops `fs:echo`. -/
theorem c4_disconnect_removes_tools_witness :
    aGet fsClient.servers "fs" =
      some ((MCPServerConnection.new "http://localhost:3000" httpOptions).connect).2 ∧
    (fsClient.disconnectServer "fs").1 = Except.ok () ∧
    MCPToolRegistry.listTools (fsClient.disconnectServer "fs").2.toolRegistry
      (some { serverId := some "fs" }) = [] ∧
    MCPToolRegistry.getTool (fsClient.disconnectServer "fs").2.toolRegistry "fs:echo" = none := by
  have h := c4_disconnect_removes_tools fsClient "fs"
    ((MCPServerConnection.new "http://localhost:3000" httpOptions).connect).2 rfl
  refine ⟨rfl, h.1, h.2.1, ?_⟩
  have hm : fsEchoTool ∈ fsClient.toolRegistry := by
    show fsEchoTool ∈ [fsEchoTool]
    simp
  exact h.2.2 fsEchoTool hm rfl
